import Mathlib

/-!
Verification development for the qbit-smart-web precision speed-limiting
engine.  The definitions below are a shallow embedding of the Python
sources `speed_limiting_engine.py` and `precision_limit_engine.py`:
Python floats are modelled as exact rationals (ℚ), Python ints as ℤ,
and every stateful class method becomes an explicit state-passing
function returning the updated state together with the method result.
-/

/-- `safe_div` from speed_limiting_engine.py: division with a default
when the denominator is zero or tiny (|b| < 1e-10). -/
def safe_div (a b default : ℚ) : ℚ :=
  if b = 0 ∨ |b| < 1 / 10 ^ 10 then default else a / b

/-- `clamp` from speed_limiting_engine.py. -/
def clamp (value min_val max_val : ℚ) : ℚ :=
  max min_val (min max_val value)

/-- Integer clamp (Python `clamp` applied to ints stays integral). -/
def clampZ (value min_val max_val : ℤ) : ℤ :=
  max min_val (min max_val value)

/-- Python `int()` on a float: truncation toward zero. -/
def pyint (q : ℚ) : ℤ :=
  if 0 ≤ q then ⌊q⌋ else -⌊-q⌋

/-- The four controller phases.  In the source these are the strings
produced by `TorrentLimitState.get_phase`; no other phase string ever
reaches the controller, the quantizer or the precision tracker. -/
inductive Phase where
  | warmup
  | catch
  | steady
  | finish
  deriving DecidableEq, Repr

open Phase

/-- `EngineTuning.quant_steps` as instantiated by PrecisionLimitEngine. -/
def quant_steps : Phase → ℤ
  | .finish => 256
  | .steady => 512
  | .catch => 2048
  | .warmup => 4096

/-- `EngineTuning.min_limit` / `LimitConfig.MIN_LIMIT`. -/
def MIN_LIMIT : ℤ := 4096

/-- `LimitConfig.SPEED_LIMIT` (50 MiB/s). -/
def SPEED_LIMIT : ℚ := 50 * 1024 * 1024

/-- PID gains and headroom per phase (`pid_params` passed to
EngineTuning in PrecisionLimitEngine.__init__). -/
def pid_kp : Phase → ℚ
  | .warmup => 0.3
  | .catch => 0.5
  | .steady => 0.6
  | .finish => 0.8

def pid_ki : Phase → ℚ
  | .warmup => 0.05
  | .catch => 0.10
  | .steady => 0.15
  | .finish => 0.20

def pid_kd : Phase → ℚ
  | .warmup => 0.02
  | .catch => 0.05
  | .steady => 0.08
  | .finish => 0.12

def pid_headroom : Phase → ℚ
  | .warmup => 1.03
  | .catch => 1.02
  | .steady => 1.005
  | .finish => 1.001

/-- State of `PIDController` (speed_limiting_engine.py lines 39-87). -/
structure PIDState where
  kp : ℚ := 0.6
  ki : ℚ := 0.15
  kd : ℚ := 0.08
  integral : ℚ := 0
  last_error : ℚ := 0
  last_time : ℚ := 0
  last_output : ℚ := 1
  initialized : Bool := false
  integral_limit : ℚ := 0.3
  derivative_filter : ℚ := 0
  deriving DecidableEq, Repr

/-- `PIDController.__init__`. -/
def PIDState.init : PIDState := {}

/-- `PIDController.set_phase` with the engine's pid_params table. -/
def PIDState.set_phase (s : PIDState) (phase : Phase) : PIDState :=
  { s with kp := pid_kp phase, ki := pid_ki phase, kd := pid_kd phase }

/-- `PIDController.update`: returns the new controller state and the
output factor. -/
def PIDState.update (s : PIDState) (target actual now : ℚ) : PIDState × ℚ :=
  let error := safe_div (target - actual) (max target 1) 0
  if s.initialized = false then
    ({ s with last_error := error, last_time := now, initialized := true }, 1)
  else
    let dt := now - s.last_time
    if dt ≤ 0.01 then
      (s, s.last_output)
    else
      let p_term := s.kp * error
      let integral := clamp (s.integral + error * dt) (-s.integral_limit) s.integral_limit
      let i_term := s.ki * integral
      let raw_derivative := (error - s.last_error) / dt
      let derivative_filter := 0.3 * raw_derivative + 0.7 * s.derivative_filter
      let d_term := s.kd * derivative_filter
      let output := clamp (1 + p_term + i_term + d_term) 0.5 2
      ({ s with last_time := now, integral := integral,
                derivative_filter := derivative_filter,
                last_error := error, last_output := output }, output)

/-- Run a list of `(target, actual, now)` inputs through the PID
controller, collecting the outputs. -/
def PIDState.run : PIDState → List (ℚ × ℚ × ℚ) → PIDState × List ℚ
  | s, [] => (s, [])
  | s, (t, a, n) :: rest =>
      let (s1, o) := s.update t a n
      let (s2, os) := s1.run rest
      (s2, o :: os)

/-- State of `ExtendedKalman` (speed_limiting_engine.py lines 90-146),
with the engine's noise parameters q_speed=0.1, q_accel=0.05, r=0.5. -/
structure KalmanState where
  speed : ℚ := 0
  accel : ℚ := 0
  p00 : ℚ := 1000
  p01 : ℚ := 0
  p10 : ℚ := 0
  p11 : ℚ := 1000
  last_time : ℚ := 0
  initialized : Bool := false
  q_speed : ℚ := 0.1
  q_accel : ℚ := 0.05
  r : ℚ := 0.5
  deriving DecidableEq, Repr

/-- `ExtendedKalman.__init__` with the engine's parameters. -/
def KalmanState.init : KalmanState := {}

/-- `ExtendedKalman.update`: returns new state and `(speed, accel)`. -/
def KalmanState.update (s : KalmanState) (measurement now : ℚ) :
    KalmanState × (ℚ × ℚ) :=
  if s.initialized = false then
    ({ s with speed := measurement, last_time := now, initialized := true },
     (measurement, 0))
  else
    let dt := now - s.last_time
    if dt ≤ 0.01 then
      (s, (s.speed, s.accel))
    else
      let pred_speed := s.speed + s.accel * dt
      let p00_pred := s.p00 + dt * (s.p10 + s.p01) + dt * dt * s.p11 + s.q_speed
      let p01_pred := s.p01 + dt * s.p11
      let p10_pred := s.p10 + dt * s.p11
      let p11_pred := s.p11 + s.q_accel
      let sInnov := p00_pred + s.r
      if |sInnov| < 1 / 10 ^ 10 then
        ({ s with last_time := now }, (s.speed, s.accel))
      else
        let k0 := p00_pred / sInnov
        let k1 := p10_pred / sInnov
        let innovation := measurement - pred_speed
        ({ s with
            last_time := now,
            speed := pred_speed + k0 * innovation,
            accel := s.accel + k1 * innovation,
            p00 := (1 - k0) * p00_pred,
            p01 := (1 - k0) * p01_pred,
            p10 := -k1 * p00_pred + p10_pred,
            p11 := -k1 * p01_pred + p11_pred },
         (pred_speed + k0 * innovation, s.accel + k1 * innovation))

/-- `ExtendedKalman.predict_upload`. -/
def KalmanState.predict_upload (s : KalmanState) (time_left : ℚ) : ℚ :=
  max 0 (s.speed * time_left + 0.5 * s.accel * time_left * time_left)

/-- Feed a list of `(measurement, now)` pairs into the filter. -/
def KalmanState.runMeasurements : KalmanState → List (ℚ × ℚ) → KalmanState
  | s, [] => s
  | s, (m, n) :: rest => ((s.update m n).1).runMeasurements rest

/-- `MultiWindowSpeedTracker` sample list: `(time, speed)` pairs in
arrival order, bounded to the last 1200 entries (deque maxlen). -/
def mwRecord (samples : List (ℚ × ℚ)) (now speed : ℚ) : List (ℚ × ℚ) :=
  let l := samples ++ [(now, speed)]
  l.drop (l.length - 1200)

/-- Phase-dependent window weights from
`MultiWindowSpeedTracker.get_weighted_avg`. -/
def mwWeight (phase : Phase) (window : ℚ) : ℚ :=
  match phase with
  | .warmup => if window = 5 then 0.1 else if window = 15 then 0.2 else
               if window = 30 then 0.3 else 0.4
  | .catch => if window = 5 then 0.2 else if window = 15 then 0.3 else
              if window = 30 then 0.3 else 0.2
  | .steady => if window = 5 then 0.3 else if window = 15 then 0.3 else
               if window = 30 then 0.2 else 0.2
  | .finish => if window = 5 then 0.5 else if window = 15 then 0.3 else
               if window = 30 then 0.15 else 0.05

/-- Contribution of one window to the weighted average: returns
`(avg·w, w)` or `(0, 0)` when the window holds no samples. -/
def mwWindowTerm (samples : List (ℚ × ℚ)) (now : ℚ) (phase : Phase)
    (window : ℚ) : ℚ × ℚ :=
  let win := (samples.filter (fun p => now - p.1 ≤ window)).map Prod.snd
  if win.length = 0 then (0, 0)
  else (win.sum / win.length * mwWeight phase window, mwWeight phase window)

/-- `MultiWindowSpeedTracker.get_weighted_avg`. -/
def mwWeightedAvg (samples : List (ℚ × ℚ)) (now : ℚ) (phase : Phase) : ℚ :=
  let terms := [(5 : ℚ), 15, 30, 60].map (mwWindowTerm samples now phase)
  let weighted_sum := (terms.map Prod.fst).sum
  let total_weight := (terms.map Prod.snd).sum
  if total_weight > 0 then weighted_sum / total_weight else 0

/-- `MultiWindowSpeedTracker.get_recent_trend` (window = 10 s). -/
def mwRecentTrend (samples : List (ℚ × ℚ)) (now : ℚ) : ℚ :=
  let rel := samples.filter (fun p => now - p.1 ≤ 10)
  if rel.length < 5 then 0
  else
    let mid := rel.length / 2
    let first := ((rel.take mid).map Prod.snd).sum / mid
    let second := ((rel.drop mid).map Prod.snd).sum / (rel.length - mid)
    safe_div (second - first) first 0

/-- `AdaptiveQuantizer.quantize` with the engine's tuning
(min_limit 4096, quant_steps per phase).  Python `//` is floor
division, hence `Int.fdiv`. -/
def quantize (limit : ℤ) (phase : Phase) (current_speed target trend : ℚ) : ℤ :=
  if limit ≤ 0 then limit
  else
    let base := quant_steps phase
    let r := safe_div current_speed target 1
    let step : ℤ :=
      if phase = .finish then 256
      else if r > 1.2 then base * 2
      else if r > 1.05 then base
      else if r > 0.8 then base.fdiv 2
      else base
    let step := if |trend| > 0.1 then max 256 (step.fdiv 2) else step
    let step := clampZ step 256 8192
    max MIN_LIMIT ((limit + step.fdiv 2).fdiv step * step)

/-- `PrecisionLimitController._smooth`: takes the stored
`_smooth_limit`, the new limit and the phase; returns the updated
`_smooth_limit` and the value returned to the caller. -/
def smooth (smooth_limit new_limit : ℤ) (phase : Phase) : ℤ × ℤ :=
  if new_limit ≤ 0 ∨ smooth_limit ≤ 0 ∨ phase = .finish then
    (new_limit, new_limit)
  else
    let change := |((new_limit - smooth_limit : ℤ) : ℚ)| / (smooth_limit : ℚ)
    if change < 0.2 then (new_limit, new_limit)
    else
      let factor : ℚ := if change ≥ 0.5 then 0.5 else 0.3
      let v := pyint ((1 - factor) * (smooth_limit : ℚ) + factor * (new_limit : ℚ))
      (v, v)

/-- Branch labels for the reason strings produced by the engine and the
controller (the exact strings are Chinese UI text; the label identifies
the producing branch one-to-one). -/
inductive Reason where
  | pausedR
  | overspeedBrake
  | waitingReannounce
  | reportPending
  | finishCtl
  | steadyCtl
  | catchRelease
  | catchCtl
  | warmOver
  | warmPrecise
  | warmMild
  | warmFree
  | noReason
  | dlAvgRecover
  | dlSevereOver
  | dlAvgOverLimit
  | dlPersistOver
  | dlAdjust
  | optimizedReport
  | waitReport
  | avgRecovered
  | protect (r : Reason)
  deriving DecidableEq, Repr

/-- State of `PrecisionLimitController`: Kalman filter, multi-window
sample ring, PID controller, and the smoother's `_smooth_limit`. -/
structure ControllerState where
  kalman : KalmanState := .init
  tracker : List (ℚ × ℚ) := []
  pid : PIDState := .init
  smooth_limit : ℤ := -1
  deriving DecidableEq, Repr

/-- `PrecisionLimitController.__init__` with the engine's tuning. -/
def ControllerState.init : ControllerState := {}

/-- `PrecisionLimitController.record_speed`. -/
def ControllerState.record_speed (c : ControllerState) (now speed : ℚ) :
    ControllerState :=
  { c with kalman := (c.kalman.update speed now).1,
           tracker := mwRecord c.tracker now speed }

/-- `PrecisionLimitController.calculate` (speed_limiting_engine.py
lines 281-342).  The `debug` dictionary of the source is output-only
bookkeeping and is omitted; its entries (`predicted_ratio`,
`required_speed`, `pid_output`) appear below as the let-bindings used
by the control branches.  Returns the updated controller state, the
limit, and the reason label. -/
def ControllerState.calculate (c : ControllerState) (target : ℚ)
    (uploaded : ℤ) (time_left elapsed : ℚ) (phase : Phase) (now : ℚ)
    (precision_adj : ℚ) : ControllerState × ℤ × Reason :=
  let adjusted_target := target * precision_adj
  let kalman_speed := c.kalman.speed
  let weighted_speed := mwWeightedAvg c.tracker now phase
  let trend := mwRecentTrend c.tracker now
  let current_speed :=
    if phase = .finish ∧ weighted_speed > 0 then weighted_speed
    else if kalman_speed > 0 then kalman_speed else weighted_speed
  let total_time := elapsed + time_left
  let target_total := adjusted_target * total_time
  let predicted_ratio :=
    safe_div ((uploaded : ℚ) + c.kalman.predict_upload time_left) target_total 0
  let need := max 0 (target_total - (uploaded : ℚ))
  if time_left ≤ 0 then (c, -1, .reportPending)
  else
    let required_speed := need / time_left
    let pid1 := c.pid.set_phase phase
    let pidRes := pid1.update target_total (uploaded : ℚ) now
    let pid2 := pidRes.1
    let pid_output := pidRes.2
    let headroom := pid_headroom phase
    let br : ℤ × Reason :=
      match phase with
      | .finish =>
          let pred := predicted_ratio
          let correction :=
            if pred > 1.002 then max 0.8 (1 - (pred - 1) * 3)
            else if pred < 0.998 then min 1.2 (1 + (1 - pred) * 3)
            else 1
          (pyint (required_speed * pid_output * correction), .finishCtl)
      | .steady =>
          let headroom := if predicted_ratio > 1.01 then 1 else headroom
          (pyint (required_speed * headroom * pid_output), .steadyCtl)
      | .catch =>
          if required_speed > adjusted_target * 5 then (-1, .catchRelease)
          else (pyint (required_speed * headroom * pid_output), .catchCtl)
      | .warmup =>
          let progress := safe_div (uploaded : ℚ) target_total 0
          if progress ≥ 1 then (MIN_LIMIT, .warmOver)
          else if progress ≥ 0.8 then
            (pyint (required_speed * 1.01 * pid_output), .warmPrecise)
          else if progress ≥ 0.5 then
            (pyint (required_speed * 1.05), .warmMild)
          else (-1, .warmFree)
    let limit := br.1
    let reason := br.2
    let limit :=
      if limit > 0 then
        quantize limit phase current_speed adjusted_target trend
      else limit
    let smRes := smooth c.smooth_limit limit phase
    ({ c with pid := pid2, smooth_limit := smRes.1 }, smRes.2, reason)

/-- `PrecisionTracker` state (speed_limiting_engine.py lines 217-259).
The `_phase_adj` dict always holds exactly the four phases, so it is
modelled as four fields. -/
structure PTrackerState where
  history : List (ℚ × Phase × ℚ) := []
  adj_warmup : ℚ := 1
  adj_catch : ℚ := 1
  adj_steady : ℚ := 1
  adj_finish : ℚ := 1
  global_adj : ℚ := 1
  deriving DecidableEq, Repr

def PTrackerState.init : PTrackerState := {}

def PTrackerState.phase_adj (s : PTrackerState) : Phase → ℚ
  | .warmup => s.adj_warmup
  | .catch => s.adj_catch
  | .steady => s.adj_steady
  | .finish => s.adj_finish

def PTrackerState.setPhaseAdj (s : PTrackerState) : Phase → ℚ → PTrackerState
  | .warmup, v => { s with adj_warmup := v }
  | .catch, v => { s with adj_catch := v }
  | .steady, v => { s with adj_steady := v }
  | .finish, v => { s with adj_finish := v }

/-- One phase's step of `PrecisionTracker._update`: when the phase has
at least 3 ratios in the window, scale its adjustment and clamp to
[0.92, 1.08]. -/
def PTrackerState.updatePhase (s : PTrackerState) (p : Phase) : PTrackerState :=
  let ratios := (s.history.filter (fun e => e.2.1 = p)).map Prod.fst
  if ratios.length < 3 then s
  else
    let avg := ratios.sum / ratios.length
    let adj : ℚ :=
      if avg > 1.005 then 0.998
      else if avg > 1.001 then 0.999
      else if avg < 0.99 then 1.002
      else if avg < 0.995 then 1.001
      else 1
    s.setPhaseAdj p (clamp (s.phase_adj p * adj) 0.92 1.08)

/-- The global-adjustment tail of `PrecisionTracker._update`. -/
def PTrackerState.updateGlobal (s : PTrackerState) : PTrackerState :=
  let all_ratios := s.history.map Prod.fst
  let global_avg := all_ratios.sum / all_ratios.length
  if global_avg > 1.002 then
    { s with global_adj := clamp (s.global_adj * 0.999) 0.95 1.05 }
  else if global_avg < 0.995 then
    { s with global_adj := clamp (s.global_adj * 1.001) 0.95 1.05 }
  else s

/-- `PrecisionTracker._update`: per-phase adjustments for the four
phases appearing in the window, then the global adjustment. -/
def PTrackerState.updateAdj (s : PTrackerState) : PTrackerState :=
  if s.history.length < 5 then s
  else
    ((((s.updatePhase .warmup).updatePhase .catch).updatePhase
      .steady).updatePhase .finish).updateGlobal

/-- `PrecisionTracker.record`: append to the 30-entry window, then
update the adjustments. -/
def PTrackerState.record (s : PTrackerState) (r : ℚ) (p : Phase) (now : ℚ) :
    PTrackerState :=
  let h := s.history ++ [(r, p, now)]
  ({ s with history := h.drop (h.length - 30) }).updateAdj

/-- `PrecisionTracker.get_adjustment`. -/
def PTrackerState.get_adjustment (s : PTrackerState) (p : Phase) : ℚ :=
  s.phase_adj p * s.global_adj

/-- Run a list of `(ratio, phase, now)` records through the tracker. -/
def PTrackerState.runRecords : PTrackerState → List (ℚ × Phase × ℚ) → PTrackerState
  | s, [] => s
  | s, (r, p, n) :: rest => (s.record r p n).runRecords rest

/-- `estimate_announce_interval` (precision_limit_engine.py lines
97-114); `time_ref` falsy (None or 0) yields the 1800 s bucket. -/
def estimate_announce_interval (time_ref : Option ℚ) (now : ℚ) : ℤ :=
  match time_ref with
  | none => 1800
  | some t =>
      if t = 0 then 1800
      else
        let age := max 0 (now - t)
        if age < 7 * 86400 then 1800
        else if age < 30 * 86400 then 2700
        else 3600

/-- `SpeedTracker` of precision_limit_engine.py: `(now, up, dl)`
samples, deque maxlen 3600. -/
def stRecord (samples : List (ℚ × ℚ × ℚ)) (up dl now : ℚ) :
    List (ℚ × ℚ × ℚ) :=
  let l := samples ++ [(now, up, dl)]
  l.drop (l.length - 3600)

/-- `SpeedTracker.get_avg_speeds` over a window.  The source reads the
wall clock inside; here the clock value is the `now` argument. -/
def stAvgSpeeds (samples : List (ℚ × ℚ × ℚ)) (now window : ℚ) : ℚ × ℚ :=
  let relevant := (samples.filter (fun e => now - e.1 ≤ window)).map Prod.snd
  if relevant.length = 0 then (0, 0)
  else ((relevant.map Prod.fst).sum / relevant.length,
        (relevant.map Prod.snd).sum / relevant.length)

/-- `TorrentLimitState` (precision_limit_engine.py lines 266-333): all
scalar fields of the dataclass, the embedded controller, and the
engine-level speed tracker samples.  The `last_debug` dict is
output-only bookkeeping and is omitted. -/
structure TorrentLimitState where
  hash : String
  name : String := ""
  tracker : String := ""
  instance_id : Option ℤ := none
  cycle_start : ℚ := 0
  cycle_uploaded_start : ℤ := 0
  cycle_index : ℤ := 0
  cycle_synced : Bool := false
  cycle_interval : ℚ := 0
  jump_count : ℤ := 0
  last_jump : ℚ := 0
  cached_time_left : ℚ := 0
  cache_ts : ℚ := 0
  prev_time_left : ℚ := 0
  last_props : ℚ := 0
  reannounce_source : String := ""
  last_peer_list_check : ℚ := 0
  last_announce_time : Option ℚ := none
  peer_list_uploaded : Option ℤ := none
  site_id : Option ℤ := none
  tid : Option ℤ := none
  promotion : String := "unknown"
  publish_time : Option ℚ := none
  tid_searched : Bool := false
  tid_search_time : ℚ := 0
  tid_not_found : Bool := false
  target_speed : ℤ := 0
  last_limit : ℤ := -2
  last_limit_reason : String := ""
  last_dl_limit : ℤ := -1
  dl_limited_this_cycle : Bool := false
  last_reannounce : ℚ := 0
  waiting_reannounce : Bool := false
  reannounced_this_cycle : Bool := false
  session_start_time : ℚ := 0
  total_uploaded_start : ℤ := 0
  total_size : ℤ := 0
  time_added : ℚ := 0
  limit_controller : Option ControllerState := none
  speed_tracker : List (ℚ × ℚ × ℚ) := []
  monitor_notified : Bool := false

/-- `TorrentLimitState.get_phase` with the time-left value already
resolved (the source computes `tl` via `get_tl` when not supplied). -/
def TorrentLimitState.get_phase (s : TorrentLimitState) (tl : ℚ) : Phase :=
  if s.cycle_synced = false then .warmup
  else if tl < 10 then .finish
  else if tl < 60 then .catch
  else .steady

/-- `TorrentLimitState.get_announce_interval`: reference time is
`publish_time` if truthy, else `time_added` if positive. -/
def TorrentLimitState.get_announce_interval (s : TorrentLimitState)
    (now : ℚ) : ℤ :=
  let ref : Option ℚ :=
    match s.publish_time with
    | some t => if t = 0 then (if s.time_added > 0 then some s.time_added else none)
                else some t
    | none => if s.time_added > 0 then some s.time_added else none
  estimate_announce_interval ref now

/-- `TorrentLimitState.this_time`. -/
def TorrentLimitState.this_time (s : TorrentLimitState) (now : ℚ) : ℚ :=
  max 0 (now - s.cycle_start)

/-- `TorrentLimitState.this_up`. -/
def TorrentLimitState.this_up (s : TorrentLimitState) (total_uploaded : ℤ) : ℤ :=
  max 0 (total_uploaded - s.cycle_uploaded_start)

/-- `TorrentLimitState.estimate_total`. -/
def TorrentLimitState.estimate_total (s : TorrentLimitState) (now tl : ℚ) : ℚ :=
  let e := now - s.cycle_start
  if 0 < tl ∧ tl < 86400 then max 1 (e + tl)
  else if s.cycle_synced = true ∧ s.cycle_interval > 0 then max 1 s.cycle_interval
  else max 1 e

/-- `TorrentLimitState.get_real_avg_speed`. -/
def TorrentLimitState.get_real_avg_speed (s : TorrentLimitState)
    (total_uploaded : ℤ) (now : ℚ) : ℚ :=
  if s.session_start_time ≤ 0 then 0
  else
    let dt := max (1 / 10 ^ 6) (now - s.session_start_time)
    ((total_uploaded : ℚ) - (s.total_uploaded_start : ℚ)) / dt

/-- `TorrentLimitState.new_cycle` (precision_limit_engine.py lines
377-418). -/
def TorrentLimitState.new_cycle (s : TorrentLimitState) (now : ℚ)
    (uploaded : ℤ) (tl : ℚ) (is_jump : Bool) : TorrentLimitState :=
  let s : TorrentLimitState :=
    if is_jump then
      let s : TorrentLimitState := { s with jump_count := s.jump_count + 1 }
      let s : TorrentLimitState :=
        if s.last_jump > 0 then
          let interval := now - s.last_jump
          if interval > 60 then
            let s : TorrentLimitState := { s with cycle_interval := interval }
            if s.jump_count ≥ 2 then { s with cycle_synced := true } else s
          else s
        else s
      { s with last_jump := now, last_announce_time := some now,
               cycle_uploaded_start := uploaded }
    else
      let interval : ℚ := (s.get_announce_interval now : ℚ)
      let elapsed_in_cycle := if 0 < tl ∧ tl < interval then interval - tl else 0
      if s.time_added ≠ 0 ∧ now - s.time_added < interval then
        { s with cycle_uploaded_start := 0 }
      else if elapsed_in_cycle > 60 then
        let avg_speed : ℚ :=
          match s.limit_controller with
          | some c => max 0 c.kalman.speed
          | none => 0
        if avg_speed > 0 then
          let est_start := pyint ((uploaded : ℚ) - avg_speed * elapsed_in_cycle)
          { s with cycle_uploaded_start := max 0 est_start }
        else { s with cycle_uploaded_start := uploaded }
      else { s with cycle_uploaded_start := uploaded }
  { s with
      cycle_start := now,
      cycle_index := s.cycle_index + 1,
      dl_limited_this_cycle := false,
      reannounced_this_cycle := false,
      last_dl_limit := -1,
      limit_controller := s.limit_controller.map (fun _ => ControllerState.init),
      speed_tracker := [],
      prev_time_left := tl }

/-- `LimitConfig.DL_LIMIT_MIN` (KiB/s). -/
def DL_LIMIT_MIN : ℤ := 512

/-- `DownloadLimiter.calc_dl_limit` (precision_limit_engine.py lines
146-191): returns the recommended download cap in KiB/s (negative
means release / no change) and the reason label. -/
def calc_dl_limit (state : TorrentLimitState) (total_done total_uploaded
    total_size : ℤ) (dl_speed now : ℚ) : ℤ × Reason :=
  let this_up := state.this_up total_uploaded
  let this_time := state.this_time now
  if this_time < 2 then (-1, .noReason)
  else
    let avg_speed := (this_up : ℚ) / this_time
    if avg_speed ≤ SPEED_LIMIT then
      if state.last_dl_limit > 0 then (-1, .dlAvgRecover) else (-1, .noReason)
    else
      let remaining := total_size - total_done
      if remaining ≤ 0 then (-1, .noReason)
      else
        let eta := (remaining : ℚ) / max dl_speed 1
        let min_time : ℚ := 20 * (if state.last_limit > 0 then 2 else 1)
        if state.last_dl_limit ≤ 0 then
          if 0 < eta ∧ eta ≤ min_time then
            let denominator := (this_up : ℚ) / SPEED_LIMIT - this_time + 30
            if denominator ≤ 0 then (DL_LIMIT_MIN, .dlSevereOver)
            else
              let dl_limit := (remaining : ℚ) / denominator / 1024
              (max DL_LIMIT_MIN (pyint dl_limit), .dlAvgOverLimit)
          else (-1, .noReason)
        else
          if avg_speed ≥ SPEED_LIMIT then
            if dl_speed / 1024 < 2 * (state.last_dl_limit : ℚ) then
              let denominator := (this_up : ℚ) / SPEED_LIMIT - this_time + 60
              if denominator ≤ 0 then (DL_LIMIT_MIN, .dlPersistOver)
              else
                let dl_limit := (remaining : ℚ) / denominator / 1024
                let new_limit := max DL_LIMIT_MIN (pyint dl_limit)
                if (new_limit : ℚ) < (state.last_dl_limit : ℚ) * 0.95 then
                  (new_limit, .dlAdjust)
                else (-1, .noReason)
            else (-1, .noReason)
          else (-1, .noReason)

/-- `LimitConfig.REANNOUNCE_MIN_INTERVAL`. -/
def REANNOUNCE_MIN_INTERVAL : ℚ := 900

/-- `ReannounceOptimizer.should_reannounce` (precision_limit_engine.py
lines 197-242).  Mutates `waiting_reannounce` in the wait branch, so it
returns the updated state along with the decision and reason label. -/
def should_reannounce (state : TorrentLimitState) (total_done
    total_uploaded total_size : ℤ) (now : ℚ) :
    TorrentLimitState × Bool × Reason :=
  if state.last_reannounce > 0 ∧ now - state.last_reannounce < REANNOUNCE_MIN_INTERVAL then
    (state, false, .noReason)
  else
    let this_up := state.this_up total_uploaded
    let this_time := state.this_time now
    if this_time < 30 then (state, false, .noReason)
    else
      let avgs := stAvgSpeeds state.speed_tracker now 300
      let avg_up := avgs.1
      let avg_dl := avgs.2
      if avg_up ≤ SPEED_LIMIT ∨ avg_dl ≤ 0 then (state, false, .noReason)
      else
        let remaining := total_size - total_done
        if remaining ≤ 0 then (state, false, .noReason)
        else
          let announce_interval := state.get_announce_interval now
          let complete_time := (remaining : ℚ) / avg_dl + now
          let perfect_time := complete_time - (announce_interval : ℚ) * SPEED_LIMIT / avg_up
          let earliest :=
            if (this_up : ℚ) / this_time > SPEED_LIMIT then
              ((this_up : ℚ) - SPEED_LIMIT * this_time) / (45 * 1024 * 1024) + now
            else now
          if earliest - (now - this_time) < REANNOUNCE_MIN_INTERVAL then
            (state, false, .noReason)
          else
            if earliest > perfect_time then
              if now ≥ earliest then
                if (this_up : ℚ) / this_time > SPEED_LIMIT then
                  (state, true, .optimizedReport)
                else (state, false, .noReason)
              else
                if earliest < perfect_time + 60 then
                  ({ state with waiting_reannounce := true }, false, .waitReport)
                else (state, false, .noReason)
            else (state, false, .noReason)

/-- `ReannounceOptimizer.check_waiting_reannounce` (lines 244-263). -/
def check_waiting_reannounce (state : TorrentLimitState)
    (total_uploaded : ℤ) (now : ℚ) : TorrentLimitState × Bool × Reason :=
  if state.waiting_reannounce = false then (state, false, .noReason)
  else
    let this_up := state.this_up total_uploaded
    let this_time := state.this_time now
    if this_time < REANNOUNCE_MIN_INTERVAL then (state, false, .noReason)
    else
      let avg_speed := safe_div (this_up : ℚ) this_time 0
      if avg_speed < SPEED_LIMIT then
        ({ state with waiting_reannounce := false }, true, .avgRecovered)
      else (state, false, .noReason)

/-- `PrecisionLimitEngine._do_reannounce` on a successful client RPC:
stamps `last_reannounce` with the wall clock (the tick's `now`), sets
`reannounced_this_cycle`, clears `waiting_reannounce`. -/
def do_reannounce (state : TorrentLimitState) (now : ℚ) : TorrentLimitState :=
  { state with last_reannounce := now, reannounced_this_cycle := true,
               waiting_reannounce := false }

/-- `LimitConfig.REANNOUNCE_WAIT_LIMIT` (KiB/s). -/
def REANNOUNCE_WAIT_LIMIT : ℤ := 5120

/-- `LimitConfig.PROGRESS_PROTECT`. -/
def PROGRESS_PROTECT : ℚ := 0.90

/-- The phase-based control path of
`PrecisionLimitEngine._calculate_upload_limit` (lines 1028-1055): the
code that runs when none of the paused / overspeed / waiting overrides
hit.  The local `total_time = state.estimate_total(now, tl)` of the
source is computed but never used there, hence `_total_time`. -/
def calc_upload_limit_phase (ptracker : PTrackerState)
    (state : TorrentLimitState) (total_uploaded : ℤ) (progress tl now : ℚ) :
    TorrentLimitState × ℤ × Reason :=
  let elapsed := max 0 (now - state.cycle_start)
  let uploaded_in_cycle := state.this_up total_uploaded
  let phase := state.get_phase tl
  let precision_adj := ptracker.get_adjustment phase
  let _total_time := state.estimate_total now tl
  let ctrl := state.limit_controller.getD ControllerState.init
  let res := ctrl.calculate (state.target_speed : ℚ) uploaded_in_cycle tl
    elapsed phase now precision_adj
  let ctrl2 := res.1
  let limit := res.2.1
  let reason := res.2.2
  let lr : ℤ × Reason :=
    if progress > PROGRESS_PROTECT ∧ limit < 0 ∧ tl < 30 then
      (max MIN_LIMIT state.target_speed, .protect reason)
    else (limit, reason)
  ({ state with limit_controller := some ctrl2 }, lr.1, lr.2)

/-- `PrecisionLimitEngine._calculate_upload_limit` (lines 1003-1055).
`paused` is the engine's pause flag, `ptracker` the process-global
precision tracker; the notifier calls are side-effect-only and
omitted.  The `up_speed` parameter is unused in the source body. -/
def calc_upload_limit (paused : Bool) (ptracker : PTrackerState)
    (state : TorrentLimitState) (total_uploaded : ℤ)
    (up_speed progress tl now : ℚ) : TorrentLimitState × ℤ × Reason :=
  if paused = true then (state, -1, .pausedR)
  else
    let real_speed := state.get_real_avg_speed total_uploaded now
    if real_speed > SPEED_LIMIT * 1.05 then (state, MIN_LIMIT, .overspeedBrake)
    else if state.waiting_reannounce = true then
      (state, REANNOUNCE_WAIT_LIMIT * 1024, .waitingReannounce)
    else calc_upload_limit_phase ptracker state total_uploaded progress tl now

/-- Removal predicate of `PrecisionLimitEngine._cleanup_states` (lines
841-851): a state is removed when its hash is not in this pass's
active set and `now - session_start_time > 7200` (with
`session_start_time > 0`). -/
def shouldRemoveState (st : TorrentLimitState) (isActive : Bool)
    (now : ℚ) : Bool :=
  !isActive && decide (st.session_start_time > 0) &&
    decide (now - st.session_start_time > 7200)

/-- `PrecisionLimitEngine._cleanup_states` over an association list of
states. -/
def cleanup_states (states : List (String × TorrentLimitState))
    (active_hashes : List String) (now : ℚ) :
    List (String × TorrentLimitState) :=
  states.filter (fun p => !(shouldRemoveState p.2 (active_hashes.contains p.1) now))

/-- Python keyword-call binding for a function declared without
`**kwargs`: the call binds (raises no TypeError) only when every
keyword name used by the caller matches a declared parameter. -/
def kwargs_bind (params kwargs : List String) : Bool :=
  kwargs.all params.contains

/-- The parameter names of `Database.save_torrent_limit_state`
(database.py line 955), excluding `self`: it takes a single
positional dict and declares no `**kwargs`. -/
def save_torrent_limit_state_params : List String := ["state"]

/-- The keyword-argument names used by the engine's save call in
`_save_states_to_db` (precision_limit_engine.py lines 1309-1331). -/
def engine_save_call_kwargs : List String :=
  ["torrent_hash", "name", "cycle_start", "cycle_uploaded_start",
   "cycle_index", "cycle_synced", "cycle_interval", "jump_count",
   "last_jump", "prev_time_left", "cached_time_left", "instance_id",
   "site_id", "tid", "target_speed", "last_limit", "last_limit_reason",
   "last_dl_limit", "session_start_time", "total_uploaded_start",
   "total_size"]

/-- Every attribute name the `Database` class defines (database.py):
all of its methods plus the instance attributes set in `__init__`
(`db_path`, `_local`).  Attribute lookup on the engine's `db` object
(the module-level `Database` instance) resolves only these names. -/
def database_attr_names : List String :=
  ["__init__", "db_path", "_local", "get_conn", "_init_db",
   "_ensure_columns", "_init_builtin_rules", "get_config", "set_config",
   "get_all_config", "get_qb_instances", "get_qb_instance",
   "add_qb_instance", "update_qb_instance", "delete_qb_instance",
   "get_pt_sites", "get_pt_site", "get_pt_sites_with_rss",
   "_clean_cookie", "_clean_url", "add_pt_site", "update_pt_site",
   "delete_pt_site", "get_speed_rules", "get_enabled_speed_rules",
   "add_speed_rule", "update_speed_rule", "delete_speed_rule",
   "get_rss_rules", "add_rss_rule", "update_rss_rule",
   "delete_rss_rule", "get_remove_rules", "get_enabled_remove_rules",
   "add_remove_rule", "update_remove_rule", "delete_remove_rule",
   "reset_builtin_rules", "add_log", "get_logs", "_format_log_time",
   "clear_logs", "add_limit_history", "get_limit_history", "get_stats",
   "update_stats", "hash_password", "create_user", "verify_user",
   "user_exists", "update_password", "save_torrent_limit_state",
   "load_torrent_limit_state", "delete_torrent_limit_state",
   "get_all_torrent_limit_states", "cleanup_old_limit_states",
   "get_limit_stats", "update_limit_stats", "save_runtime_config",
   "get_runtime_config"]

/-- The attribute name `_restore_states_from_db` looks up on the
database object (precision_limit_engine.py line 1270). -/
def engine_restore_lookup : String := "get_torrent_limit_states"


/-- The per-tick operations of `_process_torrent` that can touch the
reannounce bookkeeping (`last_reannounce`, `waiting_reannounce`,
`reannounced_this_cycle`), as trace events.  Event parameters are the
observations the engine reads from the client at that moment. -/
inductive REvent where
  | recordSpeed (now up dl : ℚ)
  | newCycle (now : ℚ) (uploaded : ℤ) (tl : ℚ) (is_jump : Bool)
  | checkWaiting (now : ℚ) (uploaded : ℤ)
  | shouldRe (now : ℚ) (done uploaded size : ℤ)
  deriving Repr

/-- Wall-clock time at which an event happens. -/
def REvent.time : REvent → ℚ
  | .recordSpeed now _ _ => now
  | .newCycle now _ _ _ => now
  | .checkWaiting now _ => now
  | .shouldRe now _ _ _ => now

/-- One event step: mirrors the corresponding call sites in
`_process_torrent` (speed recording; cycle opening; the
waiting-reannounce resolution at lines 968-971; the reannounce
decision at lines 996-999, guarded by `reannounced_this_cycle`).  When
a reannounce is issued the step also emits its timestamp. -/
def stepEvent (st : TorrentLimitState) : REvent → TorrentLimitState × Option ℚ
  | .recordSpeed now up dl =>
      ({ st with speed_tracker := stRecord st.speed_tracker up dl now }, none)
  | .newCycle now uploaded tl is_jump =>
      (st.new_cycle now uploaded tl is_jump, none)
  | .checkWaiting now uploaded =>
      let res := check_waiting_reannounce st uploaded now
      if res.2.1 then (do_reannounce res.1 now, some now) else (res.1, none)
  | .shouldRe now done uploaded size =>
      if st.reannounced_this_cycle then (st, none)
      else
        let res := should_reannounce st done uploaded size now
        if res.2.1 then (do_reannounce res.1 now, some now) else (res.1, none)

/-- Run a list of events, collecting the reannounce timestamps in
order. -/
def runEvents : TorrentLimitState → List REvent → TorrentLimitState × List ℚ
  | st, [] => (st, [])
  | st, e :: rest =>
      let r := stepEvent st e
      let rec' := runEvents r.1 rest
      (rec'.1, (r.2.toList) ++ rec'.2)


/-- C10: when `time_left ≤ 0` the controller's `calculate` returns -1
(uncapped) immediately, before the phase branches, the PID update, the
quantiser and the smoother run — the controller state is returned
unchanged. -/
theorem calculate_uncapped_at_announce_boundary (c : ControllerState)
    (target : ℚ) (uploaded : ℤ) (time_left elapsed : ℚ) (phase : Phase)
    (now precision_adj : ℚ) (h : time_left ≤ 0) :
    c.calculate target uploaded time_left elapsed phase now precision_adj =
      (c, -1, .reportPending) := by
  simp only [ControllerState.calculate]
  rw [if_pos h]

/-- Witness for C10 at a concrete input. -/
theorem calculate_uncapped_at_announce_boundary_witness :
    ControllerState.init.calculate 100 0 0 50 .steady 1000 1 =
      (ControllerState.init, -1, .reportPending) :=
  calculate_uncapped_at_announce_boundary ControllerState.init 100 0 0 50
    .steady 1000 1 (by norm_num)

/-- C1: `_calculate_upload_limit` applies its overrides in strict
priority order: paused ⇒ (-1, paused); else session real-average above
SPEED_LIMIT·1.05 ⇒ (MIN_LIMIT = 4096, overspeed-brake); else
waiting_reannounce ⇒ (5120 KiB/s = 5120·1024 B/s, waiting-reannounce);
only otherwise does the phase-based control path run. -/
theorem upload_cap_override_priority (paused : Bool) (pt : PTrackerState)
    (st : TorrentLimitState) (tot : ℤ) (up_speed progress tl now : ℚ) :
    (paused = true →
      calc_upload_limit paused pt st tot up_speed progress tl now =
        (st, -1, .pausedR)) ∧
    (paused = false →
      st.get_real_avg_speed tot now > SPEED_LIMIT * 1.05 →
      calc_upload_limit paused pt st tot up_speed progress tl now =
        (st, 4096, .overspeedBrake)) ∧
    (paused = false →
      ¬ st.get_real_avg_speed tot now > SPEED_LIMIT * 1.05 →
      st.waiting_reannounce = true →
      calc_upload_limit paused pt st tot up_speed progress tl now =
        (st, 5120 * 1024, .waitingReannounce)) ∧
    (paused = false →
      ¬ st.get_real_avg_speed tot now > SPEED_LIMIT * 1.05 →
      st.waiting_reannounce = false →
      calc_upload_limit paused pt st tot up_speed progress tl now =
        calc_upload_limit_phase pt st tot progress tl now) := by
  refine ⟨?_, ?_, ?_, ?_⟩
  · intro hp
    simp [calc_upload_limit, hp]
  · intro hp hover
    simp [calc_upload_limit, hp, hover, MIN_LIMIT]
  · intro hp hover hw
    simp [calc_upload_limit, hp, hover, hw, REANNOUNCE_WAIT_LIMIT]
  · intro hp hover hw
    simp [calc_upload_limit, hp, hover, hw]

/-- Witness for C1 at a concrete input (paused branch). -/
theorem upload_cap_override_priority_witness :
    calc_upload_limit true PTrackerState.init { hash := "h" } 0 0 0 0 0 =
      ({ hash := "h" }, -1, .pausedR) :=
  (upload_cap_override_priority true PTrackerState.init { hash := "h" }
    0 0 0 0 0).1 rfl

/-- The adaptive-quantiser step/rounding algorithm exactly as the spec
states it (C2): phase base step, doubled when ratio > 1.2, kept when
> 1.05, halved when > 0.8, else base — with no special case for the
FINISH phase. -/
def quantize_claim_ref (limit : ℤ) (phase : Phase)
    (current_speed target trend : ℚ) : ℤ :=
  if limit ≤ 0 then limit
  else
    let base := quant_steps phase
    let r := safe_div current_speed target 1
    let step : ℤ :=
      if r > 1.2 then base * 2
      else if r > 1.05 then base
      else if r > 0.8 then base.fdiv 2
      else base
    let step := if |trend| > 0.1 then max 256 (step.fdiv 2) else step
    let step := clampZ step 256 8192
    max MIN_LIMIT ((limit + step.fdiv 2).fdiv step * step)

/-- C2 counterexample: in FINISH phase with ratio > 1.2 the code pins
the step to 256 while the spec's reference algorithm would use
512 = 2·256, so the two round the command 4400 differently
(4352 vs 4608). -/
theorem quantize_differs_from_claim_ref :
    quantize 4400 .finish 13 10 0 ≠ quantize_claim_ref 4400 .finish 13 10 0 := by
  norm_num [quantize, quantize_claim_ref, safe_div, quant_steps, clampZ,
    MIN_LIMIT, abs_lt, lt_abs]
  decide

/-- C2 amended: off the FINISH phase the quantiser follows the spec's
reference algorithm exactly; in FINISH the step is fixed at 256
regardless of ratio and trend; the result of a positive command is
never below MIN_LIMIT = 4096. -/
theorem quantize_amended_correct (limit : ℤ) (phase : Phase)
    (cs tgt trend : ℚ) (h : 0 < limit) :
    (phase ≠ .finish →
      quantize limit phase cs tgt trend = quantize_claim_ref limit phase cs tgt trend) ∧
    quantize limit .finish cs tgt trend = max 4096 ((limit + 128).fdiv 256 * 256) ∧
    4096 ≤ quantize limit phase cs tgt trend := by
  have hnle : ¬ limit ≤ 0 := not_le.mpr h
  refine ⟨fun hp => ?_, ?_, ?_⟩
  · cases phase
    · rfl
    · rfl
    · rfl
    · exact absurd rfl hp
  · have e1 : Int.fdiv 256 2 = 128 := by decide
    have e2 : (256 : ℤ) ⊔ 128 = 256 := by decide
    have e3 : (8192 : ℤ) ⊓ 256 = 256 := by decide
    simp only [quantize, if_neg hnle]
    norm_num [clampZ]
    split_ifs <;> simp [MIN_LIMIT, e1, e2, e3]
  · simp only [quantize, if_neg hnle]
    split_ifs <;> exact le_max_left _ _

/-- Witness for C2's amended theorem at a concrete input. -/
theorem quantize_amended_correct_witness :
    (Phase.steady ≠ Phase.finish →
      quantize 5000 .steady 1 1 0 = quantize_claim_ref 5000 .steady 1 1 0) ∧
    quantize 5000 .finish 1 1 0 = max 4096 (((5000 : ℤ) + 128).fdiv 256 * 256) ∧
    4096 ≤ quantize 5000 .steady 1 1 0 :=
  quantize_amended_correct 5000 .steady 1 1 0 (by decide)

/-- C3 counterexample: feeding the non-negative measurements 100, 0, 0
at times 0, 1, 2 into a fresh Kalman filter drives the speed estimate
negative (to -1249375/25097511), so the estimate is not preserved
non-negative by updates. -/
theorem kalman_speed_can_go_negative :
    (KalmanState.init.runMeasurements [(100, 0), (0, 1), (0, 2)]).speed < 0 := by
  norm_num [KalmanState.runMeasurements, KalmanState.update, KalmanState.init,
    abs_lt, lt_abs]

/-- C3 amended: the first update sets the estimate to the measurement
(hence ≥ 0 for a non-negative measurement), and the derived upload
prediction is clamped at 0, but the estimate itself may become
negative under later updates. -/
theorem kalman_nonneg_amended :
    (∀ m now : ℚ, 0 ≤ m → 0 ≤ ((KalmanState.init.update m now).1).speed) ∧
    (∀ (s : KalmanState) (t : ℚ), 0 ≤ s.predict_upload t) := by
  constructor
  · intro m now hm
    simpa [KalmanState.update, KalmanState.init] using hm
  · intro s t
    exact le_max_left 0 _

/-- Witness for C3's amended theorem at a concrete input. -/
theorem kalman_nonneg_amended_witness :
    0 ≤ ((KalmanState.init.update 5 0).1).speed :=
  kalman_nonneg_amended.1 5 0 (by norm_num)

/-- C9: whenever the download limiter returns a positive cap, the cap
is at least DL_LIMIT_MIN = 512 KiB/s, in every producing branch. -/
theorem dl_cap_respects_min (st : TorrentLimitState) (d u sz : ℤ)
    (dl now : ℚ) (h : 0 < (calc_dl_limit st d u sz dl now).1) :
    512 ≤ (calc_dl_limit st d u sz dl now).1 := by
  revert h
  unfold calc_dl_limit
  dsimp only
  split_ifs <;> intro h <;>
    first
      | exact le_max_left _ _
      | norm_num [DL_LIMIT_MIN] at h ⊢

/-- Witness for C9 at a concrete input that produces a positive cap
(the avg-over-limit branch yields exactly 512). -/
theorem dl_cap_respects_min_witness :
    512 ≤ (calc_dl_limit { hash := "h" } 0 1048576000 1024 1024 10).1 :=
  dl_cap_respects_min { hash := "h" } 0 1048576000 1024 1024 10 (by
    norm_num [calc_dl_limit, TorrentLimitState.this_up, TorrentLimitState.this_time,
      SPEED_LIMIT, DL_LIMIT_MIN, pyint])

/-- `clamp` keeps its value inside the requested bounds. -/
theorem clamp_bounds (v lo hi : ℚ) (h : lo ≤ hi) :
    lo ≤ clamp v lo hi ∧ clamp v lo hi ≤ hi :=
  ⟨le_max_left _ _, max_le h (min_le_left _ _)⟩

/-- One PID update keeps both the returned output and the stored
`last_output` inside [0.5, 2]. -/
theorem pid_update_output_bounds (s : PIDState) (t a n : ℚ)
    (hs : 0.5 ≤ s.last_output ∧ s.last_output ≤ 2) :
    (0.5 ≤ (s.update t a n).2 ∧ (s.update t a n).2 ≤ 2) ∧
    (0.5 ≤ (s.update t a n).1.last_output ∧ (s.update t a n).1.last_output ≤ 2) := by
  unfold PIDState.update
  dsimp only
  split_ifs with h1 h2
  · exact ⟨⟨by norm_num, by norm_num⟩, hs⟩
  · exact ⟨hs, hs⟩
  · refine ⟨⟨?_, ?_⟩, ?_, ?_⟩ <;>
      first
        | exact (clamp_bounds _ 0.5 2 (by norm_num)).1
        | exact (clamp_bounds _ 0.5 2 (by norm_num)).2

/-- Every output of a PID run from a state with in-range `last_output`
is inside [0.5, 2]. -/
theorem pid_run_outputs_bounds (inputs : List (ℚ × ℚ × ℚ)) (s : PIDState)
    (hs : 0.5 ≤ s.last_output ∧ s.last_output ≤ 2) :
    ∀ o ∈ (s.run inputs).2, 0.5 ≤ o ∧ o ≤ 2 := by
  induction inputs generalizing s with
  | nil => intro o ho; simp [PIDState.run] at ho
  | cons hd tl ih =>
      intro o ho
      obtain ⟨t, a, n⟩ := hd
      simp only [PIDState.run, List.mem_cons] at ho
      rcases ho with rfl | ho
      · exact (pid_update_output_bounds s t a n hs).1
      · exact ih (s.update t a n).1 (pid_update_output_bounds s t a n hs).2 o ho

/-- C4: over every input sequence the PID controller's update returns
values in [0.5, 2]; the very first update from a fresh controller
returns exactly 1; and when the time since the previous accepted
update is ≤ 10 ms (0.01 s) it returns the previous output with the
state unchanged. -/
theorem pid_update_contract :
    (∀ (inputs : List (ℚ × ℚ × ℚ)), ∀ o ∈ (PIDState.init.run inputs).2,
      0.5 ≤ o ∧ o ≤ 2) ∧
    (∀ t a now : ℚ, (PIDState.init.update t a now).2 = 1) ∧
    (∀ (s : PIDState) (t a now : ℚ), s.initialized = true →
      now - s.last_time ≤ 0.01 → s.update t a now = (s, s.last_output)) := by
  refine ⟨?_, ?_, ?_⟩
  · intro inputs
    exact pid_run_outputs_bounds inputs PIDState.init
      ⟨by norm_num [PIDState.init], by norm_num [PIDState.init]⟩
  · intro t a now
    rfl
  · intro s t a now hinit hdt
    unfold PIDState.update
    rw [if_neg (by simp [hinit]), if_pos hdt]

/-- Witness for C4 at a concrete initialised state and tiny dt. -/
theorem pid_update_contract_witness :
    ({ initialized := true } : PIDState).update 1 2 0 =
      ({ initialized := true }, ({ initialized := true } : PIDState).last_output) :=
  pid_update_contract.2.2 { initialized := true } 1 2 0 rfl (by norm_num)

/-- The precision tracker's bias-bound invariant. -/
def PTrackerBounds (s : PTrackerState) : Prop :=
  (0.92 ≤ s.adj_warmup ∧ s.adj_warmup ≤ 1.08) ∧
  (0.92 ≤ s.adj_catch ∧ s.adj_catch ≤ 1.08) ∧
  (0.92 ≤ s.adj_steady ∧ s.adj_steady ≤ 1.08) ∧
  (0.92 ≤ s.adj_finish ∧ s.adj_finish ≤ 1.08) ∧
  (0.95 ≤ s.global_adj ∧ s.global_adj ≤ 1.05)

theorem setPhaseAdj_bounds (s : PTrackerState) (p : Phase) (v : ℚ)
    (h : PTrackerBounds s) (hv : 0.92 ≤ v ∧ v ≤ 1.08) :
    PTrackerBounds (s.setPhaseAdj p v) := by
  obtain ⟨h1, h2, h3, h4, h5⟩ := h
  cases p
  · exact ⟨hv, h2, h3, h4, h5⟩
  · exact ⟨h1, hv, h3, h4, h5⟩
  · exact ⟨h1, h2, hv, h4, h5⟩
  · exact ⟨h1, h2, h3, hv, h5⟩

theorem updatePhase_preserves_bounds (s : PTrackerState) (p : Phase)
    (h : PTrackerBounds s) : PTrackerBounds (s.updatePhase p) := by
  unfold PTrackerState.updatePhase
  dsimp only
  split_ifs with hlen <;>
    first
      | exact h
      | exact setPhaseAdj_bounds s p _ h (clamp_bounds _ _ _ (by norm_num))

theorem updateGlobal_preserves_bounds (s : PTrackerState)
    (h : PTrackerBounds s) : PTrackerBounds s.updateGlobal := by
  obtain ⟨h1, h2, h3, h4, h5⟩ := h
  unfold PTrackerState.updateGlobal
  dsimp only
  split_ifs with hg1 hg2
  · exact ⟨h1, h2, h3, h4, clamp_bounds _ _ _ (by norm_num)⟩
  · exact ⟨h1, h2, h3, h4, clamp_bounds _ _ _ (by norm_num)⟩
  · exact ⟨h1, h2, h3, h4, h5⟩

theorem updateAdj_preserves_bounds (s : PTrackerState)
    (h : PTrackerBounds s) : PTrackerBounds s.updateAdj := by
  unfold PTrackerState.updateAdj
  split_ifs with h5
  · exact h
  · exact updateGlobal_preserves_bounds _
      (updatePhase_preserves_bounds _ .finish
        (updatePhase_preserves_bounds _ .steady
          (updatePhase_preserves_bounds _ .catch
            (updatePhase_preserves_bounds _ .warmup h))))

theorem record_preserves_bounds (s : PTrackerState) (r : ℚ) (p : Phase)
    (n : ℚ) (h : PTrackerBounds s) : PTrackerBounds (s.record r p n) := by
  unfold PTrackerState.record
  exact updateAdj_preserves_bounds _ h

theorem runRecords_preserves_bounds (recs : List (ℚ × Phase × ℚ))
    (s : PTrackerState) (h : PTrackerBounds s) :
    PTrackerBounds (s.runRecords recs) := by
  induction recs generalizing s with
  | nil => exact h
  | cons hd tl ih =>
      obtain ⟨r, p, n⟩ := hd
      exact ih _ (record_preserves_bounds s r p n h)

/-- C7 main statement. -/
theorem precision_tracker_adjustment_bounds (recs : List (ℚ × Phase × ℚ))
    (p : Phase) :
    (0.92 ≤ (PTrackerState.init.runRecords recs).phase_adj p ∧
      (PTrackerState.init.runRecords recs).phase_adj p ≤ 1.08) ∧
    (0.95 ≤ (PTrackerState.init.runRecords recs).global_adj ∧
      (PTrackerState.init.runRecords recs).global_adj ≤ 1.05) ∧
    (PTrackerState.init.runRecords recs).get_adjustment p =
      (PTrackerState.init.runRecords recs).phase_adj p *
        (PTrackerState.init.runRecords recs).global_adj ∧
    (0.92 * 0.95 ≤ (PTrackerState.init.runRecords recs).get_adjustment p ∧
      (PTrackerState.init.runRecords recs).get_adjustment p ≤ 1.08 * 1.05) := by
  have hb := runRecords_preserves_bounds recs PTrackerState.init
    (by norm_num [PTrackerBounds, PTrackerState.init])
  obtain ⟨h1, h2, h3, h4, h5⟩ := hb
  have hp : 0.92 ≤ (PTrackerState.init.runRecords recs).phase_adj p ∧
      (PTrackerState.init.runRecords recs).phase_adj p ≤ 1.08 := by
    cases p
    · exact h1
    · exact h2
    · exact h3
    · exact h4
  refine ⟨hp, h5, rfl, ?_, ?_⟩
  · exact mul_le_mul hp.1 h5.1 (by norm_num) (le_trans (by norm_num) hp.1)
  · exact mul_le_mul hp.2 h5.2 (le_trans (by norm_num) h5.1) (by norm_num)

/-- C5: the persistence round trip never executes at all.  The save
call in `_save_states_to_db` passes keyword arguments that
`Database.save_torrent_limit_state` — one positional `state` dict, no
`**kwargs` — cannot bind, so every save raises TypeError before
serialising anything; and `_restore_states_from_db` looks up
`get_torrent_limit_states`, a name the `Database` class does not
define, so restore aborts with AttributeError before reading any row.
Both exceptions are swallowed, leaving persistence inoperative, so no
persisted record is ever restored and re-saved. -/
theorem persistence_interface_mismatch :
    kwargs_bind save_torrent_limit_state_params engine_save_call_kwargs = false ∧
    database_attr_names.contains engine_restore_lookup = false := by
  decide

/-- C8: `_cleanup_states` keys eviction on `session_start_time` — the
time the torrent was FIRST observed in this engine session — not on
the time its hash was last seen in the client's active list.  A state
first observed 3 h ago (`session_start_time = 1`, `now = 10800`) is
removed on the first tick in which it is absent from the active set,
even though it was present on the previous tick; only presence in the
current tick's active set protects it. -/
theorem cleanup_uses_session_age_not_last_seen :
    cleanup_states [("a", { hash := "a", session_start_time := 1 })] [] 10800 = [] ∧
    cleanup_states [("a", { hash := "a", session_start_time := 1 })] ["a"] 10800 =
      [("a", { hash := "a", session_start_time := 1 })] := by
  have d1 : decide ((1 : ℚ) > 0) = true := decide_eq_true (by norm_num)
  have d2 : decide ((10800 : ℚ) - 1 > 7200) = true := decide_eq_true (by norm_num)
  constructor <;>
    simp [cleanup_states, shouldRemoveState, d1, d2, List.contains]

/-- The first guard of `should_reannounce`, contraposed: when it does
not refuse, either no reannounce ever happened (`last ≤ 0`) or at
least 900 s have passed. -/
theorem reannounce_guard {last now : ℚ} (h : ¬(last > 0 ∧ now - last < 900)) :
    last ≤ 0 ∨ last + 900 ≤ now := by
  by_cases hl : last ≤ 0
  · exact Or.inl hl
  · right
    push_neg at h
    have := h (lt_of_not_le hl)
    linarith

set_option maxHeartbeats 1600000 in
/-- Behaviour of `should_reannounce` on the reannounce bookkeeping:
when it fires, the state is unchanged and the 900 s guard held; when
it does not fire, the state is unchanged except possibly for setting
`waiting_reannounce`, which also requires the 900 s guard. -/
theorem should_reannounce_spec (st : TorrentLimitState) (d u sz : ℤ) (now : ℚ) :
    ((should_reannounce st d u sz now).2.1 = true →
      (should_reannounce st d u sz now).1 = st ∧
      (st.last_reannounce ≤ 0 ∨ st.last_reannounce + 900 ≤ now)) ∧
    ((should_reannounce st d u sz now).2.1 = false →
      ((should_reannounce st d u sz now).1 = st ∨
        ((should_reannounce st d u sz now).1 = { st with waiting_reannounce := true } ∧
          (st.last_reannounce ≤ 0 ∨ st.last_reannounce + 900 ≤ now)))) := by
  unfold should_reannounce
  simp only [REANNOUNCE_MIN_INTERVAL]
  split_ifs with h1 h2 h3 h4 h5 h6 h7 h8 <;>
    constructor <;> intro hf <;>
    first
      | exact ⟨rfl, reannounce_guard h1⟩
      | exact Or.inl rfl
      | exact Or.inr ⟨rfl, reannounce_guard h1⟩
      | simp at hf

/-- Behaviour of `check_waiting_reannounce`: it fires only from a
waiting state (then clearing the flag) and otherwise leaves the state
unchanged. -/
theorem check_waiting_spec (st : TorrentLimitState) (u : ℤ) (now : ℚ) :
    ((check_waiting_reannounce st u now).2.1 = true →
      st.waiting_reannounce = true ∧
      (check_waiting_reannounce st u now).1 = { st with waiting_reannounce := false }) ∧
    ((check_waiting_reannounce st u now).2.1 = false →
      (check_waiting_reannounce st u now).1 = st) := by
  unfold check_waiting_reannounce
  dsimp only
  split_ifs with h1 h2 h3 <;>
    constructor <;> intro hf <;>
    first
      | exact ⟨by simpa using h1, rfl⟩
      | rfl
      | simp at hf

/-- `new_cycle` touches neither `last_reannounce` nor
`waiting_reannounce`. -/
theorem new_cycle_preserves_reannounce (st : TorrentLimitState) (now : ℚ)
    (u : ℤ) (tl : ℚ) (j : Bool) :
    (st.new_cycle now u tl j).last_reannounce = st.last_reannounce ∧
    (st.new_cycle now u tl j).waiting_reannounce = st.waiting_reannounce := by
  unfold TorrentLimitState.new_cycle
  cases j <;> (try dsimp only) <;> split_ifs <;> exact ⟨rfl, rfl⟩

/-- Prepending an optional previous-reannounce timestamp to a gap-chain
log keeps it a gap chain when the first new entry is ≥ 900 s later. -/
theorem pairwise_gap_prefix (last τ : ℚ) (log2 : List ℚ)
    (hbase : List.Pairwise (fun a b => a + 900 ≤ b) (τ :: log2))
    (hlt : 0 < last → last + 900 ≤ τ) :
    List.Pairwise (fun a b => a + 900 ≤ b)
      ((if 0 < last then [last] else []) ++ τ :: log2) := by
  split_ifs with h
  · refine List.pairwise_cons.mpr ⟨?_, hbase⟩
    intro b hb
    rcases List.mem_cons.mp hb with rfl | hb
    · exact hlt h
    · have h1 := (List.pairwise_cons.mp hbase).1 b hb
      have h2 := hlt h
      linarith
  · simpa using hbase

set_option maxHeartbeats 1600000 in
set_option maxRecDepth 4000 in
/-- Main reannounce-interval invariant: over any event trace with
positive, non-decreasing timestamps, the issued reannounce timestamps
(prefixed with the state's previous reannounce time, when any) are
pairwise at least 900 s apart, provided a pending `waiting_reannounce`
flag already respects the guard. -/
theorem runEvents_reannounce_gap (events : List REvent) (st : TorrentLimitState)
    (hmono : List.Pairwise (· ≤ ·) (events.map REvent.time))
    (hpos : ∀ t ∈ events.map REvent.time, 0 < t)
    (hwait : st.waiting_reannounce = true →
      st.last_reannounce ≤ 0 ∨
        ∀ t ∈ events.map REvent.time, st.last_reannounce + 900 ≤ t) :
    List.Pairwise (fun a b => a + 900 ≤ b)
      ((if 0 < st.last_reannounce then [st.last_reannounce] else []) ++
        (runEvents st events).2) := by
  induction events generalizing st with
  | nil =>
      simp only [runEvents, List.append_nil]
      split_ifs <;> simp
  | cons e rest ih =>
      simp only [List.map_cons, List.pairwise_cons] at hmono
      obtain ⟨hA, hmono'⟩ := hmono
      have hτpos : 0 < e.time := hpos _ (by simp)
      have hpos' : ∀ t ∈ rest.map REvent.time, 0 < t := by
        intro t ht
        exact hpos t (by simp [ht])
      cases e with
      | recordSpeed now up dl =>
          dsimp only [REvent.time] at hA hτpos
          dsimp only [runEvents, stepEvent, Option.toList, List.nil_append]
          exact ih { st with speed_tracker := stRecord st.speed_tracker up dl now }
            hmono' hpos'
            (fun hw => (hwait hw).imp id
              (fun hall t ht => hall t (List.mem_cons_of_mem _ ht)))
      | newCycle now u tl j =>
          dsimp only [REvent.time] at hA hτpos
          dsimp only [runEvents, stepEvent, Option.toList, List.nil_append]
          obtain ⟨hL, hW⟩ := new_cycle_preserves_reannounce st now u tl j
          have h := ih (st.new_cycle now u tl j) hmono' hpos' (by
            intro hw
            rw [hW] at hw
            rcases hwait hw with h | h
            · exact Or.inl (by rw [hL]; exact h)
            · right
              intro t ht
              rw [hL]
              exact h t (List.mem_cons_of_mem _ ht))
          rw [hL] at h
          exact h
      | checkWaiting now u =>
          dsimp only [REvent.time] at hA hτpos
          dsimp only [runEvents, stepEvent]
          cases hcw : (check_waiting_reannounce st u now).2.1 with
          | true =>
              obtain ⟨hwtrue, heq⟩ := (check_waiting_spec st u now).1 hcw
              rw [if_pos rfl, heq]
              have hbase := ih
                (do_reannounce { st with waiting_reannounce := false } now)
                hmono' hpos' (by intro hw; simp [do_reannounce] at hw)
              simp only [do_reannounce] at hbase ⊢
              rw [if_pos hτpos] at hbase
              refine pairwise_gap_prefix st.last_reannounce now _ ?_ ?_
              · simpa using hbase
              · intro h0
                rcases hwait hwtrue with h | h
                · linarith
                · exact h now (by simp [REvent.time])
          | false =>
              have heq := (check_waiting_spec st u now).2 hcw
              rw [if_neg Bool.false_ne_true, heq]
              exact ih st hmono' hpos'
                (fun hw => (hwait hw).imp id
                  (fun hall t ht => hall t (List.mem_cons_of_mem _ ht)))
      | shouldRe now d u sz =>
          dsimp only [REvent.time] at hA hτpos
          dsimp only [runEvents, stepEvent]
          cases hrc : st.reannounced_this_cycle with
          | true =>
              rw [if_pos rfl]
              exact ih st hmono' hpos'
                (fun hw => (hwait hw).imp id
                  (fun hall t ht => hall t (List.mem_cons_of_mem _ ht)))
          | false =>
              rw [if_neg Bool.false_ne_true]
              cases hsf : (should_reannounce st d u sz now).2.1 with
              | true =>
                  obtain ⟨heq, hguard⟩ := (should_reannounce_spec st d u sz now).1 hsf
                  rw [if_pos rfl, heq]
                  have hbase := ih (do_reannounce st now) hmono' hpos'
                    (by intro hw; simp [do_reannounce] at hw)
                  simp only [do_reannounce] at hbase ⊢
                  rw [if_pos hτpos] at hbase
                  refine pairwise_gap_prefix st.last_reannounce now _ ?_ ?_
                  · simpa using hbase
                  · intro h0
                    rcases hguard with h | h
                    · linarith
                    · exact h
              | false =>
                  rcases (should_reannounce_spec st d u sz now).2 hsf with
                    heq | ⟨heq, hguard⟩
                  · rw [if_neg Bool.false_ne_true, heq]
                    exact ih st hmono' hpos'
                      (fun hw => (hwait hw).imp id
                        (fun hall t ht => hall t (List.mem_cons_of_mem _ ht)))
                  · rw [if_neg Bool.false_ne_true, heq]
                    exact ih { st with waiting_reannounce := true } hmono'
                      hpos'
                      (fun _ => hguard.imp id
                        (fun hb t ht => le_trans hb (hA t ht)))

/-- C6: starting from a fresh (or freshly restored) torrent state —
`waiting_reannounce` false and `last_reannounce` 0, which is how both
`TorrentLimitState()` and `_restore_states_from_db` initialise them —
no two forced reannounces issued by the optimiser ('optimised') or the
waiting resolution ('average-recovered') are less than 900 s apart,
over every trace of engine ticks with positive non-decreasing clock
values. -/
theorem reannounce_min_gap (events : List REvent) (st : TorrentLimitState)
    (hw : st.waiting_reannounce = false) (hl : st.last_reannounce = 0)
    (hmono : List.Pairwise (· ≤ ·) (events.map REvent.time))
    (hpos : ∀ t ∈ events.map REvent.time, 0 < t) :
    List.Pairwise (fun a b => a + 900 ≤ b) (runEvents st events).2 := by
  have h := runEvents_reannounce_gap events st hmono hpos
    (by intro hx; rw [hw] at hx; exact absurd hx Bool.false_ne_true)
  rw [hl, if_neg (lt_irrefl 0)] at h
  simpa using h

/-- Witness for C6 at a concrete one-event trace. -/
theorem reannounce_min_gap_witness :
    List.Pairwise (fun a b : ℚ => a + 900 ≤ b)
      (runEvents { hash := "h" } [REvent.shouldRe 1000 0 100 1000]).2 :=
  reannounce_min_gap [REvent.shouldRe 1000 0 100 1000] { hash := "h" } rfl rfl
    (by simp)
    (by
      intro t ht
      simp [REvent.time] at ht
      rw [ht]
      norm_num)
